import Mathlib

/-!
Verification of the MANDALA-MINER spaced-repetition core.

The definitions below are a shallow embedding of the repository source:
JavaScript numbers are modelled as rationals, timestamps as rationals,
the document store as a list of records, and the React component state of
the review screen as an explicit state record transformed by the handler
functions.
-/

namespace MandalaMiner

/-- Review status, the union "new" | "learning" | "review" | "mastered"
used by the scheduler output and the review-deck records. -/
inductive Status where
  | new
  | learning
  | review
  | mastered
deriving DecidableEq, Repr

/-- Item type, the union "sentence" | "grammar" | "character". -/
inductive ItemType where
  | sentence
  | grammar
  | character
deriving DecidableEq, Repr

/-! ## Scheduler (srsAlgorithm utility, SM-2 family) -/

/-- The constant MIN_EASE_FACTOR = 1.3 from the scheduler module. -/
def MIN_EASE_FACTOR : ℚ := 13/10

/-- The constant DEFAULT_EASE_FACTOR = 2.5 from the scheduler module. -/
def DEFAULT_EASE_FACTOR : ℚ := 5/2

/-- Embedding of JavaScript parseFloat(x.toFixed(2)): round to the nearest
multiple of 1/100, ties towards the larger integer numerator. -/
def round2 (x : ℚ) : ℚ := ((⌊x * 100 + 1/2⌋ : ℤ) : ℚ) / 100

/-- Input of calculateSRS: the user grade and the previous scheduling state. -/
structure SRSInput where
  grade : ℚ
  previousEaseFactor : ℚ
  previousInterval : ℚ
deriving DecidableEq, Repr

/-- Output of calculateSRS: the next interval (days), the next review
timestamp (epoch ms), the updated ease factor and the suggested status. -/
structure SRSOutput where
  interval : ℚ
  nextReview : ℚ
  easeFactor : ℚ
  status : Status
deriving DecidableEq, Repr

/-- Embedding of calculateSRS. Date.now() is passed explicitly as `now`.
Mirrors the source: new ease factor by the SM-2 formula clamped below at
MIN_EASE_FACTOR; interval 1 on failure (grade below 3), else 1 / 6 /
ceil(previousInterval times the clamped ease factor) according to the
previous interval; nextReview = now + interval days in milliseconds;
status learning on failure, mastered when the new interval exceeds 180,
review otherwise; the returned ease factor is rounded to 2 decimals. -/
def calculateSRS (now : ℚ) (input : SRSInput) : SRSOutput :=
  let grade := input.grade
  let previousEaseFactor := input.previousEaseFactor
  let previousInterval := input.previousInterval
  let newEaseFactorRaw :=
    previousEaseFactor + (1/10 - (5 - grade) * (2/25 + (5 - grade) * (1/50)))
  let newEaseFactor :=
    if newEaseFactorRaw < MIN_EASE_FACTOR then MIN_EASE_FACTOR else newEaseFactorRaw
  let newInterval : ℚ :=
    if grade < 3 then 1
    else if previousInterval = 0 then 1
    else if previousInterval = 1 then 6
    else ((⌈previousInterval * newEaseFactor⌉ : ℤ) : ℚ)
  let oneDayInMs : ℚ := 24 * 60 * 60 * 1000
  let nextReview := now + newInterval * oneDayInMs
  let status : Status :=
    if grade < 3 then .learning
    else if 180 < newInterval then .mastered
    else .review
  { interval := newInterval
    nextReview := nextReview
    easeFactor := round2 newEaseFactor
    status := status }

/-- The clamped (not yet rounded) new ease factor of the SM-2 step, the
quantity the spec calls ef-prime: ef + (0.1 - (5-g)(0.08 + (5-g) 0.02)),
clamped below at 1.3. -/
def newEF (grade ef : ℚ) : ℚ :=
  let raw := ef + (1/10 - (5 - grade) * (2/25 + (5 - grade) * (1/50)))
  if raw < MIN_EASE_FACTOR then MIN_EASE_FACTOR else raw

/-! ## Review Item Store (backend/saveToSRS.ts, mutation saveItem) -/

/-- The argument record of the saveItem mutation: the composite key and the
precomputed scheduling state to persist. -/
structure SaveArgs where
  userId : String
  itemId : String
  itemType : ItemType
  nextReview : ℚ
  interval : ℚ
  easeFactor : ℚ
  status : Status
deriving DecidableEq, Repr

/-- A document of the user_review_deck table. The three optional id columns
realise the polymorphic reference: exactly the column selected by the item
type carries the item id. -/
structure Card where
  docId : ℕ
  userId : String
  type : ItemType
  sentenceId : Option String
  grammarId : Option String
  characterId : Option String
  nextReview : ℚ
  interval : ℚ
  easeFactor : ℚ
  status : Status
  lastReview : ℚ
deriving DecidableEq, Repr

/-- The action reported by saveItem, "created" or "updated". -/
inductive UpsertAction where
  | created
  | updated
deriving DecidableEq, Repr

/-- The return value of saveItem. -/
structure UpsertResult where
  action : UpsertAction
  id : ℕ
deriving DecidableEq, Repr

/-- The user_review_deck table: the stored documents in insertion order,
plus the counter from which fresh document ids are drawn. -/
structure DB where
  cards : List Card
  nextId : ℕ
deriving DecidableEq, Repr

/-- The lookup predicate of saveItem: the index restricts to the given
userId and the filter compares the id column selected by the item type
against the item id. -/
def matchesKey (userId : String) (t : ItemType) (itemId : String) (c : Card) : Bool :=
  c.userId = userId &&
    (match t with
     | .sentence => c.sentenceId = some itemId
     | .grammar => c.grammarId = some itemId
     | .character => c.characterId = some itemId)

/-- The ctx.db.patch performed by saveItem on an existing card: replaces
the five scheduling fields, leaving the document id, key columns and type
untouched. -/
def patchCard (c : Card) (args : SaveArgs) (now : ℚ) : Card :=
  { c with
      nextReview := args.nextReview
      interval := args.interval
      easeFactor := args.easeFactor
      status := args.status
      lastReview := now }

/-- The newCardData object inserted by saveItem when no card exists for
the key: the type-selected id column holds the item id, the other two id
columns stay unset, and lastReview = now. -/
def insertedCard (args : SaveArgs) (docId : ℕ) (now : ℚ) : Card :=
  { docId := docId
    userId := args.userId
    type := args.itemType
    sentenceId := if args.itemType = .sentence then some args.itemId else none
    grammarId := if args.itemType = .grammar then some args.itemId else none
    characterId := if args.itemType = .character then some args.itemId else none
    nextReview := args.nextReview
    interval := args.interval
    easeFactor := args.easeFactor
    status := args.status
    lastReview := now }

/-- Embedding of the saveItem mutation. Date.now() is passed as `now`.
Looks up the first existing card for the composite key; if found, patches
the five scheduling fields on that document (by document id) and reports
"updated"; otherwise inserts a fresh document and reports "created". -/
def saveItem (db : DB) (now : ℚ) (args : SaveArgs) : DB × UpsertResult :=
  match db.cards.find? (matchesKey args.userId args.itemType args.itemId) with
  | some existingCard =>
      ({ db with
          cards := db.cards.map fun c =>
            if c.docId = existingCard.docId then patchCard c args now else c },
       { action := .updated, id := existingCard.docId })
  | none =>
      ({ cards := db.cards ++ [insertedCard args db.nextId now], nextId := db.nextId + 1 },
       { action := .created, id := db.nextId })

/-! ## Offline cache sync queue (OfflineCache utility) -/

/-- A queued grading event created while offline. -/
structure PendingReviewAction where
  id : String
  itemId : String
  itemType : ItemType
  grade : ℚ
  timestamp : ℚ
deriving DecidableEq, Repr

/-- Embedding of OfflineCache.queuePendingReview on the deserialized
pending list: appends the action stamped with a fresh id and Date.now(). -/
def queuePendingReview (pending : List PendingReviewAction)
    (itemId : String) (itemType : ItemType) (grade : ℚ)
    (newId : String) (now : ℚ) : List PendingReviewAction :=
  pending ++ [{ id := newId, itemId := itemId, itemType := itemType,
                grade := grade, timestamp := now }]

/-- Embedding of OfflineCache.clearPendingReviews: removes the whole
persisted pending list at once. -/
def clearPendingReviews (_pending : List PendingReviewAction) :
    List PendingReviewAction := []

/-- Replays a list of pending actions against the store one by one, from
the front; `none` as soon as one store write fails. -/
def applyAll (upsert : DB → PendingReviewAction → Option DB) (db : DB) :
    List PendingReviewAction → Option DB
  | [] => some db
  | a :: rest =>
      match upsert db a with
      | none => none
      | some db2 => applyAll upsert db2 rest

/-- Modelled from the spec: the Offline Sync Queue flush, which is not
implemented in the repository source (OfflineCache offers only
queuePendingReview, getPendingReviews and the bulk clearPendingReviews).
Per the spec contract it replays each queued action in FIFO order against
the Review Item Store via upsert; on success it removes that action and
continues; on the first failure it stops, leaving the remaining actions
queued. Returns the count of succeeded actions, the resulting store and
the remaining queue. -/
def flush (upsert : DB → PendingReviewAction → Option DB) (db : DB) :
    List PendingReviewAction → ℕ × DB × List PendingReviewAction
  | [] => (0, db, [])
  | a :: rest =>
      match upsert db a with
      | some db2 =>
          let r := flush upsert db2 rest
          (r.1 + 1, r.2.1, r.2.2)
      | none => (0, db, a :: rest)

/-! ## Review session screen (SRSReviewScreen component) -/

/-- The view state union "dashboard" | "session" | "summary". -/
inductive ViewState where
  | dashboard
  | session
  | summary
deriving DecidableEq, Repr

/-- A deck entry as built by the screen: item id, item type, due flag and
status bucket. -/
structure ReviewItem where
  itemId : String
  type : ItemType
  due : Bool
  status : Status
deriving DecidableEq, Repr

/-- The per-session statistics record. -/
structure SessionResults where
  correct : ℕ
  incorrect : ℕ
  xpGained : ℚ
deriving DecidableEq, Repr

/-- The local component state of SRSReviewScreen. -/
structure ScreenState where
  viewState : ViewState
  sessionQueue : List ReviewItem
  currentIndex : ℕ
  isFlipped : Bool
  sessionResults : SessionResults
deriving DecidableEq, Repr

/-- The due-item selection of the screen: the deck entries whose due flag
is set. -/
def dueItems (reviewDeck : List ReviewItem) : List ReviewItem :=
  reviewDeck.filter (·.due)

/-- The fixed user id of the screen. -/
def USER_ID : String := "users:123"

/-- Embedding of the startSession handler: with an empty due list it
returns without touching any state; otherwise it snapshots the due list
into the session queue, resets index, flip flag and statistics, and
switches the view to the active session. -/
def startSession (due : List ReviewItem) (s : ScreenState) : ScreenState :=
  if due.length = 0 then s
  else
    { s with
        sessionQueue := due
        currentIndex := 0
        isFlipped := false
        sessionResults := { correct := 0, incorrect := 0, xpGained := 0 }
        viewState := .session }

/-- Embedding of the handleFlip handler. -/
def handleFlip (s : ScreenState) : ScreenState := { s with isFlipped := true }

/-- The saveToSRS argument record built inside handleGrade: a mock SRS
calculation fixed by the grade alone (nextReview = now + grade days,
interval = grade, easeFactor = 2.5, status learning below grade 3 and
review otherwise). -/
def gradeArgs (grade now : ℚ) (item : ReviewItem) : SaveArgs :=
  { userId := USER_ID
    itemId := item.itemId
    itemType := item.type
    nextReview := now + grade * 86400000
    interval := grade
    easeFactor := 5/2
    status := if grade < 3 then .learning else .review }

/-- Embedding of the handleGrade handler. `upsertOk` tells whether the
awaited saveToSRS mutation resolves; when it rejects, the exception
propagates out of the handler before any state update, which the
embedding renders as an error result. On success the handler updates the
session statistics and either advances the index (resetting the flip
flag) or switches to the summary view. The returned list records the
offline-queue enqueues performed by the handler; the source performs
none. -/
def handleGrade (grade now : ℚ) (upsertOk : Bool) (s : ScreenState) :
    Except Unit (ScreenState × SaveArgs × List PendingReviewAction) :=
  match s.sessionQueue.get? s.currentIndex with
  | none => .error ()
  | some currentItem =>
      let args := gradeArgs grade now currentItem
      if upsertOk then
        let results : SessionResults :=
          { correct := if 3 ≤ grade then s.sessionResults.correct + 1
                       else s.sessionResults.correct
            incorrect := if grade < 3 then s.sessionResults.incorrect + 1
                         else s.sessionResults.incorrect
            xpGained := s.sessionResults.xpGained + grade * 10 }
        if s.currentIndex < s.sessionQueue.length - 1 then
          .ok ({ s with
                  isFlipped := false
                  currentIndex := s.currentIndex + 1
                  sessionResults := results }, args, [])
        else
          .ok ({ s with viewState := .summary, sessionResults := results }, args, [])
      else .error ()

/-! ## Helper lemmas -/

lemma qceil_eq (q : ℚ) (z : ℤ) (h1 : (z : ℚ) - 1 < q) (h2 : q ≤ (z : ℚ)) :
    (⌈q⌉ : ℤ) = z :=
  Int.ceil_eq_iff.mpr ⟨h1, h2⟩

lemma round2_ge_of (x : ℚ) (h : 13/10 ≤ x) : 13/10 ≤ round2 x := by
  rw [round2]
  have h1 : (130 : ℤ) ≤ ⌊x * 100 + 1/2⌋ := by
    apply Int.le_floor.mpr
    push_cast
    linarith
  have h2 : (130 : ℚ) ≤ ((⌊x * 100 + 1/2⌋ : ℤ) : ℚ) := by exact_mod_cast h1
  linarith

lemma calculateSRS_easeFactor_eq (now : ℚ) (inp : SRSInput) :
    (calculateSRS now inp).easeFactor =
      round2 (newEF inp.grade inp.previousEaseFactor) := rfl

lemma calculateSRS_status_eq (now : ℚ) (inp : SRSInput) :
    (calculateSRS now inp).status =
      (if inp.grade < 3 then Status.learning
       else if 180 < (calculateSRS now inp).interval then Status.mastered
       else Status.review) := rfl

lemma newEF_ge (g ef : ℚ) : MIN_EASE_FACTOR ≤ newEF g ef := by
  simp only [newEF]
  split_ifs with h
  · exact le_refl _
  · exact le_of_not_lt h

/-! ## Claims about the scheduler -/

/-- C1: for every successful grade (at least 3) and valid prior state, the
interval returned by calculateSRS is 1 when the previous interval is 0, 6
when it is 1, and the ceiling of the previous interval times the clamped
new ease factor when it exceeds 1; in particular grade 3 on the prior
state with interval 6 and ease factor 2.5 yields interval 15, ease factor
2.36 and status review. -/
theorem calculateSRS_success_intervals (now : ℚ) (inp : SRSInput)
    (hg : 3 ≤ inp.grade) (hef : MIN_EASE_FACTOR ≤ inp.previousEaseFactor)
    (hpi : 0 ≤ inp.previousInterval) :
    ((inp.previousInterval = 0 → (calculateSRS now inp).interval = 1) ∧
     (inp.previousInterval = 1 → (calculateSRS now inp).interval = 6) ∧
     (1 < inp.previousInterval →
        (calculateSRS now inp).interval =
          ((⌈inp.previousInterval * newEF inp.grade inp.previousEaseFactor⌉ : ℤ) : ℚ))) ∧
    calculateSRS 0 ⟨3, 5/2, 6⟩ = ⟨15, 1296000000, 236/100, .review⟩ := by
  have hng : ¬ inp.grade < 3 := not_lt.mpr hg
  refine ⟨⟨?_, ?_, ?_⟩, ?_⟩
  · intro h0
    simp [calculateSRS, hng, h0]
  · intro h1
    simp [calculateSRS, hng, h1]
  · intro hgt
    have h0 : ¬ inp.previousInterval = 0 := by intro h; rw [h] at hgt; linarith
    have h1 : ¬ inp.previousInterval = 1 := by intro h; rw [h] at hgt; linarith
    simp [calculateSRS, newEF, hng, h0, h1]
  · simp only [calculateSRS, round2, MIN_EASE_FACTOR]
    norm_num [SRSOutput.mk.injEq,
      qceil_eq ((354 : ℚ)/25) 15 (by norm_num) (by norm_num)]

/-- C1 witness: the theorem instantiated at grade 3 and prior state with
interval 6 and ease factor 2.5. -/
theorem calculateSRS_success_intervals_witness :
    (3 ≤ (3 : ℚ) ∧ MIN_EASE_FACTOR ≤ (5/2 : ℚ) ∧ (0 : ℚ) ≤ 6) ∧
    (((6 : ℚ) = 0 → (calculateSRS 0 ⟨3, 5/2, 6⟩).interval = 1) ∧
     ((6 : ℚ) = 1 → (calculateSRS 0 ⟨3, 5/2, 6⟩).interval = 6) ∧
     ((1 : ℚ) < 6 →
        (calculateSRS 0 ⟨3, 5/2, 6⟩).interval = ((⌈(6 : ℚ) * newEF 3 (5/2)⌉ : ℤ) : ℚ))) ∧
    calculateSRS 0 ⟨3, 5/2, 6⟩ = ⟨15, 1296000000, 236/100, .review⟩ :=
  ⟨⟨by norm_num, by rw [MIN_EASE_FACTOR]; norm_num, by norm_num⟩,
   (calculateSRS_success_intervals 0 ⟨3, 5/2, 6⟩ (by norm_num)
      (by rw [MIN_EASE_FACTOR]; norm_num) (by norm_num)).1,
   (calculateSRS_success_intervals 0 ⟨3, 5/2, 6⟩ (by norm_num)
      (by rw [MIN_EASE_FACTOR]; norm_num) (by norm_num)).2⟩

/-- C2: for every failing grade (below 3) and every prior state, the
scheduler returns interval 1 and status learning, regardless of the
previous interval. -/
theorem calculateSRS_failure_resets (now : ℚ) (inp : SRSInput)
    (hg : inp.grade < 3) :
    (calculateSRS now inp).interval = 1 ∧
    (calculateSRS now inp).status = .learning := by
  constructor <;> simp [calculateSRS, hg]

/-- C2 witness: grade 1 on a prior state with interval 100 still resets
the interval to 1 and the status to learning. -/
theorem calculateSRS_failure_resets_witness :
    (1 : ℚ) < 3 ∧
    ((calculateSRS 0 ⟨1, 5/2, 100⟩).interval = 1 ∧
     (calculateSRS 0 ⟨1, 5/2, 100⟩).status = .learning) :=
  ⟨by norm_num, calculateSRS_failure_resets 0 ⟨1, 5/2, 100⟩ (by norm_num)⟩

/-- C3: for every grade in [0,5] and valid prior state, the ease factor
returned by calculateSRS (formula, clamp at 1.3, rounding to 2 decimals)
is at least 1.3. -/
theorem calculateSRS_easeFactor_min (now : ℚ) (inp : SRSInput)
    (hg0 : 0 ≤ inp.grade) (hg5 : inp.grade ≤ 5)
    (hef : MIN_EASE_FACTOR ≤ inp.previousEaseFactor)
    (hpi : 0 ≤ inp.previousInterval) :
    MIN_EASE_FACTOR ≤ (calculateSRS now inp).easeFactor := by
  rw [calculateSRS_easeFactor_eq, MIN_EASE_FACTOR]
  apply round2_ge_of
  have := newEF_ge inp.grade inp.previousEaseFactor
  rw [MIN_EASE_FACTOR] at this
  exact this

/-- C3 witness: the worst grade 0 on the minimal valid prior state still
yields an ease factor of at least 1.3. -/
theorem calculateSRS_easeFactor_min_witness :
    ((0 : ℚ) ≤ 0 ∧ (0 : ℚ) ≤ 5 ∧ MIN_EASE_FACTOR ≤ (13/10 : ℚ) ∧ (0 : ℚ) ≤ 0) ∧
    MIN_EASE_FACTOR ≤ (calculateSRS 0 ⟨0, 13/10, 0⟩).easeFactor :=
  ⟨⟨le_refl 0, by norm_num, by rw [MIN_EASE_FACTOR], le_refl 0⟩,
   calculateSRS_easeFactor_min 0 ⟨0, 13/10, 0⟩ (le_refl 0) (by norm_num)
     (by rw [MIN_EASE_FACTOR]) (le_refl 0)⟩

/-- C4: the status returned by calculateSRS is mastered exactly when the
grade is at least 3 and the new interval exceeds 180; a successful grade
with new interval at most 180 yields status review. -/
theorem calculateSRS_mastered_iff (now : ℚ) (inp : SRSInput) :
    ((calculateSRS now inp).status = .mastered ↔
       3 ≤ inp.grade ∧ 180 < (calculateSRS now inp).interval) ∧
    (3 ≤ inp.grade → (calculateSRS now inp).interval ≤ 180 →
       (calculateSRS now inp).status = .review) := by
  constructor
  · rw [calculateSRS_status_eq]
    split_ifs with h1 h2
    · simp only [reduceCtorEq, false_iff]
      rintro ⟨h3, -⟩
      linarith
    · simp only [true_iff]
      exact ⟨not_lt.mp h1, h2⟩
    · simp only [reduceCtorEq, false_iff]
      rintro ⟨-, hI⟩
      exact h2 hI
  · intro h3 hI
    rw [calculateSRS_status_eq, if_neg (not_lt.mpr h3), if_neg (not_lt.mpr hI)]

/-- C4 witness: grade 4 on a prior state with interval 2 gives a new
interval of 5, at most 180, hence status review. -/
theorem calculateSRS_mastered_iff_witness :
    3 ≤ (4 : ℚ) ∧ (calculateSRS 0 ⟨4, 5/2, 2⟩).interval ≤ 180 ∧
    (calculateSRS 0 ⟨4, 5/2, 2⟩).status = .review :=
  ⟨by norm_num,
   by
     simp only [calculateSRS, MIN_EASE_FACTOR]
     norm_num [qceil_eq (5 : ℚ) 5 (by norm_num) (by norm_num)],
   (calculateSRS_mastered_iff 0 ⟨4, 5/2, 2⟩).2 (by norm_num)
     (by
       simp only [calculateSRS, MIN_EASE_FACTOR]
       norm_num [qceil_eq (5 : ℚ) 5 (by norm_num) (by norm_num)])⟩

/-- C5 counterexample: the scheduler does not reject out-of-range input.
Grade 6 (outside [0,5]) produces a scheduling result with interval 16 and
ease factor 2.66 (distinct from the 2.6 of grade 5, so the grade is not
silently clamped either), and a negative previous interval flows through
the formula to the result interval -9. -/
theorem calculateSRS_out_of_range_cex :
    (calculateSRS 0 ⟨6, 5/2, 6⟩).interval = 16 ∧
    (calculateSRS 0 ⟨6, 5/2, 6⟩).easeFactor = 266/100 ∧
    (calculateSRS 0 ⟨5, 5/2, 6⟩).easeFactor = 26/10 ∧
    (calculateSRS 0 ⟨3, 5/2, -4⟩).interval = -9 := by
  refine ⟨?_, ?_, ?_, ?_⟩
  · simp only [calculateSRS, MIN_EASE_FACTOR]
    norm_num [qceil_eq ((399 : ℚ)/25) 16 (by norm_num) (by norm_num)]
  · simp only [calculateSRS, round2, MIN_EASE_FACTOR]
    norm_num
  · simp only [calculateSRS, round2, MIN_EASE_FACTOR]
    norm_num
  · simp only [calculateSRS, MIN_EASE_FACTOR]
    norm_num [qceil_eq (-((236 : ℚ)/25)) (-9) (by norm_num) (by norm_num)]

/-- C5 amended: calculateSRS performs no input validation. A grade
outside [0,5] or a negative previous interval is neither rejected nor
clamped: the function still returns a result computed by the same
formulas, and grade 6 yields a different ease factor than grade 5 on the
same prior state. -/
theorem calculateSRS_no_validation (now ef i : ℚ)
    (hef : MIN_EASE_FACTOR ≤ ef) :
    (calculateSRS now ⟨6, ef, i⟩).easeFactor = round2 (ef + 16/100) ∧
    (calculateSRS now ⟨6, ef, i⟩).easeFactor ≠
      (calculateSRS now ⟨5, ef, i⟩).easeFactor ∧
    (calculateSRS now ⟨3, ef, -4⟩).interval =
      ((⌈(-4 : ℚ) * newEF 3 ef⌉ : ℤ) : ℚ) := by
  rw [MIN_EASE_FACTOR] at hef
  have h6 : newEF 6 ef = ef + 16/100 := by
    simp only [newEF, MIN_EASE_FACTOR]
    split_ifs with h
    · linarith
    · ring
  have h5 : newEF 5 ef = ef + 1/10 := by
    simp only [newEF, MIN_EASE_FACTOR]
    split_ifs with h
    · linarith
    · ring
  refine ⟨?_, ?_, ?_⟩
  · rw [calculateSRS_easeFactor_eq]
    simp only [h6]
  · rw [calculateSRS_easeFactor_eq, calculateSRS_easeFactor_eq]
    simp only [h6, h5, round2]
    intro hcontra
    have harg : (ef + 16/100) * 100 + 1/2 = (ef + 1/10) * 100 + 1/2 + ((6 : ℤ) : ℚ) := by
      push_cast
      ring
    rw [harg, Int.floor_add_int] at hcontra
    push_cast at hcontra
    linarith
  · have hng : ¬ (3 : ℚ) < 3 := lt_irrefl 3
    simp [calculateSRS, newEF, hng]
    norm_num

/-- C5 amended witness: instantiated at ease factor 2.5 and previous
interval 6. -/
theorem calculateSRS_no_validation_witness :
    MIN_EASE_FACTOR ≤ (5/2 : ℚ) ∧
    ((calculateSRS 0 ⟨6, 5/2, 6⟩).easeFactor = round2 (5/2 + 16/100) ∧
     (calculateSRS 0 ⟨6, 5/2, 6⟩).easeFactor ≠
       (calculateSRS 0 ⟨5, 5/2, 6⟩).easeFactor ∧
     (calculateSRS 0 ⟨3, 5/2, -4⟩).interval =
       ((⌈(-4 : ℚ) * newEF 3 (5/2)⌉ : ℤ) : ℚ)) :=
  ⟨by rw [MIN_EASE_FACTOR]; norm_num,
   calculateSRS_no_validation 0 (5/2) 6 (by rw [MIN_EASE_FACTOR]; norm_num)⟩

/-! ## Claims about the store -/

lemma insertedCard_matches (args : SaveArgs) (docId : ℕ) (now : ℚ) :
    matchesKey args.userId args.itemType args.itemId
      (insertedCard args docId now) = true := by
  cases ht : args.itemType <;> simp [matchesKey, insertedCard, ht]

lemma matchesKey_patchCard (u : String) (t : ItemType) (i : String)
    (c : Card) (args : SaveArgs) (now : ℚ) :
    matchesKey u t i (patchCard c args now) = matchesKey u t i c := by
  cases t <;> rfl

lemma patchCard_matches (c : Card) (args : SaveArgs) (now : ℚ)
    (h : matchesKey args.userId args.itemType args.itemId c = true) :
    matchesKey args.userId args.itemType args.itemId
      (patchCard c args now) = true := by
  rw [matchesKey_patchCard]
  exact h

/-- C6: the saveItem upsert is idempotent per composite key. On a table
with no record for the key it appends exactly one new record carrying
lastReview = now and reports created; calling it again for the same key
finds that record and patches its scheduling fields in place, preserving
all other records, the record identity and its document id, reporting
updated; the table then holds exactly one record for the key. -/
theorem saveItem_upsert_idempotent (db : DB) (now1 now2 : ℚ) (args : SaveArgs)
    (hnone : ∀ c ∈ db.cards,
      matchesKey args.userId args.itemType args.itemId c = false)
    (hid : ∀ c ∈ db.cards, c.docId < db.nextId) :
    saveItem db now1 args =
      ({ cards := db.cards ++ [insertedCard args db.nextId now1],
         nextId := db.nextId + 1 },
       { action := .created, id := db.nextId }) ∧
    matchesKey args.userId args.itemType args.itemId
      (insertedCard args db.nextId now1) = true ∧
    (insertedCard args db.nextId now1).lastReview = now1 ∧
    saveItem (saveItem db now1 args).1 now2 args =
      ({ cards := db.cards ++
            [patchCard (insertedCard args db.nextId now1) args now2],
         nextId := db.nextId + 1 },
       { action := .updated, id := db.nextId }) ∧
    (patchCard (insertedCard args db.nextId now1) args now2).docId = db.nextId ∧
    (patchCard (insertedCard args db.nextId now1) args now2).lastReview = now2 ∧
    (saveItem (saveItem db now1 args).1 now2 args).1.cards.countP
      (matchesKey args.userId args.itemType args.itemId) = 1 := by
  have hfind : db.cards.find?
      (matchesKey args.userId args.itemType args.itemId) = none :=
    List.find?_eq_none.mpr fun x hx => by simp [hnone x hx]
  have hkc1 := insertedCard_matches args db.nextId now1
  have h1 : saveItem db now1 args =
      ({ cards := db.cards ++ [insertedCard args db.nextId now1],
         nextId := db.nextId + 1 },
       { action := .created, id := db.nextId }) := by
    unfold saveItem
    rw [hfind]
  have h2find : (db.cards ++ [insertedCard args db.nextId now1]).find?
      (matchesKey args.userId args.itemType args.itemId) =
      some (insertedCard args db.nextId now1) := by
    rw [List.find?_append, hfind]
    simp [List.find?_cons, hkc1]
  have hmap : (db.cards ++ [insertedCard args db.nextId now1]).map
      (fun c => if c.docId = (insertedCard args db.nextId now1).docId
                then patchCard c args now2 else c) =
      db.cards ++ [patchCard (insertedCard args db.nextId now1) args now2] := by
    rw [List.map_append]
    congr 1
    · have hfix : ∀ a ∈ db.cards,
          (fun c => if c.docId = (insertedCard args db.nextId now1).docId
                    then patchCard c args now2 else c) a = id a := by
        intro a ha
        have hlt := hid a ha
        have hdoc : (insertedCard args db.nextId now1).docId = db.nextId := rfl
        simp only [id_eq]
        rw [if_neg]
        intro hEq
        rw [hdoc] at hEq
        omega
      rw [List.map_congr_left hfix, List.map_id]
    · simp
  have h2 : saveItem (saveItem db now1 args).1 now2 args =
      ({ cards := db.cards ++
            [patchCard (insertedCard args db.nextId now1) args now2],
         nextId := db.nextId + 1 },
       { action := .updated, id := db.nextId }) := by
    rw [h1]
    unfold saveItem
    dsimp only
    rw [h2find]
    dsimp only
    rw [hmap]
    rfl
  have hcount : (db.cards ++
      [patchCard (insertedCard args db.nextId now1) args now2]).countP
      (matchesKey args.userId args.itemType args.itemId) = 1 := by
    rw [List.countP_append]
    have hz : db.cards.countP
        (matchesKey args.userId args.itemType args.itemId) = 0 :=
      List.countP_eq_zero.mpr fun a ha => by simp [hnone a ha]
    have hkc2 := patchCard_matches (insertedCard args db.nextId now1) args now2 hkc1
    rw [hz]
    simp [List.countP_cons, hkc2]
  refine ⟨h1, hkc1, rfl, h2, rfl, rfl, ?_⟩
  rw [h2]
  exact hcount

/-- C6 witness: two upserts for the same key on the empty table create
then update a single record. -/
theorem saveItem_upsert_idempotent_witness :
    (∀ c ∈ (⟨[], 0⟩ : DB).cards,
      matchesKey "users:123" ItemType.sentence "s1" c = false) ∧
    (∀ c ∈ (⟨[], 0⟩ : DB).cards, c.docId < (⟨[], 0⟩ : DB).nextId) ∧
    (saveItem ⟨[], 0⟩ 5 ⟨"users:123", "s1", .sentence, 100, 1, 5/2, .review⟩).2.action
      = .created ∧
    (saveItem (saveItem ⟨[], 0⟩ 5
        ⟨"users:123", "s1", .sentence, 100, 1, 5/2, .review⟩).1 7
        ⟨"users:123", "s1", .sentence, 100, 1, 5/2, .review⟩).2
      = { action := .updated, id := 0 } ∧
    (saveItem (saveItem ⟨[], 0⟩ 5
        ⟨"users:123", "s1", .sentence, 100, 1, 5/2, .review⟩).1 7
        ⟨"users:123", "s1", .sentence, 100, 1, 5/2, .review⟩).1.cards.countP
      (matchesKey "users:123" ItemType.sentence "s1") = 1 :=
  ⟨fun c hc => absurd hc (List.not_mem_nil c),
   fun c hc => absurd hc (List.not_mem_nil c),
   by
     rw [(saveItem_upsert_idempotent ⟨[], 0⟩ 5 7
          ⟨"users:123", "s1", .sentence, 100, 1, 5/2, .review⟩
          (fun c hc => absurd hc (List.not_mem_nil c))
          (fun c hc => absurd hc (List.not_mem_nil c))).1],
   (saveItem_upsert_idempotent ⟨[], 0⟩ 5 7
      ⟨"users:123", "s1", .sentence, 100, 1, 5/2, .review⟩
      (fun c hc => absurd hc (List.not_mem_nil c))
      (fun c hc => absurd hc (List.not_mem_nil c))).2.2.2.1 ▸ rfl,
   (saveItem_upsert_idempotent ⟨[], 0⟩ 5 7
      ⟨"users:123", "s1", .sentence, 100, 1, 5/2, .review⟩
      (fun c hc => absurd hc (List.not_mem_nil c))
      (fun c hc => absurd hc (List.not_mem_nil c))).2.2.2.2.2.2⟩

/-! ## Claims about the offline sync queue -/

/-- C7: the flush, modelled from the spec, replays the queued actions in
FIFO order against the store via upsert: the remaining queue is exactly
the untouched suffix of the original queue in order, the removed actions
are exactly the prefix whose store writes were all confirmed (applied
front to back, each removed only after its confirmed write), and when
flush stops before the end it is because the next action's store write
failed. -/
theorem flush_fifo_at_least_once
    (upsert : DB → PendingReviewAction → Option DB)
    (db : DB) (queue : List PendingReviewAction)
    (n : ℕ) (db2 : DB) (rem : List PendingReviewAction)
    (h : flush upsert db queue = (n, db2, rem)) :
    rem = queue.drop n ∧
    applyAll upsert db (queue.take n) = some db2 ∧
    (∀ a, queue.get? n = some a → upsert db2 a = none) := by
  induction queue generalizing db n db2 rem with
  | nil =>
      simp only [flush, Prod.mk.injEq] at h
      obtain ⟨rfl, rfl, rfl⟩ := h
      refine ⟨rfl, rfl, ?_⟩
      intro a ha
      simp at ha
  | cons a rest ih =>
      simp only [flush] at h
      cases hu : upsert db a with
      | some dbx =>
          rw [hu] at h
          simp only [Prod.mk.injEq] at h
          obtain ⟨hn, hdb, hrem⟩ := h
          obtain ⟨ih1, ih2, ih3⟩ := ih dbx (flush upsert dbx rest).1
            (flush upsert dbx rest).2.1 (flush upsert dbx rest).2.2 rfl
          subst hn hdb hrem
          refine ⟨?_, ?_, ?_⟩
          · rw [List.drop_succ_cons]
            exact ih1
          · rw [List.take_succ_cons]
            simp only [applyAll, hu]
            exact ih2
          · intro b hb
            rw [List.get?_cons_succ] at hb
            exact ih3 b hb
      | none =>
          rw [hu] at h
          simp only [Prod.mk.injEq] at h
          obtain ⟨rfl, rfl, rfl⟩ := h
          refine ⟨rfl, rfl, ?_⟩
          intro b hb
          rw [List.get?_cons_zero] at hb
          cases hb
          exact hu

/-- A sample store-replay function for the flush: the upsert succeeds on
sentence actions (performing saveItem with the action data) and fails on
others, standing for a store that becomes unreachable mid-flush. -/
def upsertW (db : DB) (a : PendingReviewAction) : Option DB :=
  if a.itemType = .sentence then
    some (saveItem db a.timestamp
      { userId := USER_ID, itemId := a.itemId, itemType := a.itemType,
        nextReview := a.timestamp, interval := a.grade, easeFactor := 5/2,
        status := .review }).1
  else none

/-- A queued action whose replay succeeds. -/
def pa0 : PendingReviewAction := ⟨"p1", "s1", .sentence, 3, 10⟩

/-- A queued action whose replay fails. -/
def pa1 : PendingReviewAction := ⟨"p2", "g1", .grammar, 1, 11⟩

/-- The store after replaying pa0 against the empty store. -/
def dbW : DB :=
  { cards := [{ docId := 0, userId := "users:123", type := .sentence,
                sentenceId := some "s1", grammarId := none,
                characterId := none, nextReview := 10, interval := 3,
                easeFactor := 5/2, status := .review, lastReview := 10 }],
    nextId := 1 }

/-- C7 witness: flushing a two-action queue whose second replay fails
succeeds on the first action only, leaving exactly the suffix queued. -/
theorem flush_fifo_at_least_once_witness :
    flush upsertW ⟨[], 0⟩ [pa0, pa1] = (1, dbW, [pa1]) ∧
    ([pa1] = [pa0, pa1].drop 1 ∧
     applyAll upsertW ⟨[], 0⟩ ([pa0, pa1].take 1) = some dbW ∧
     (∀ a, [pa0, pa1].get? 1 = some a → upsertW dbW a = none)) :=
  ⟨rfl, flush_fifo_at_least_once upsertW ⟨[], 0⟩ [pa0, pa1] 1 dbW [pa1] rfl⟩

/-! ## Claims about the review session screen -/

/-- C8 counterexample: grading while the store write fails does not
advance the session and enqueues nothing; the handler aborts with the
propagated rejection (there is no queue interaction in handleGrade at
all), contradicting the claim that the session still advances with the
grade durably enqueued. -/
theorem handleGrade_failure_cex :
    handleGrade 3 0 false
      { viewState := .session,
        sessionQueue := [⟨"s1", .sentence, true, .review⟩,
                         ⟨"s2", .sentence, true, .new⟩],
        currentIndex := 0, isFlipped := true,
        sessionResults := ⟨0, 0, 0⟩ } = .error () := rfl

/-- C8 amended: when the store upsert triggered by grading rejects, the
handleGrade handler propagates the failure before any state update: the
session does not advance, the statistics are untouched and the grade is
not enqueued anywhere. -/
theorem handleGrade_failure_propagates (grade now : ℚ) (s : ScreenState) :
    handleGrade grade now false s = .error () := by
  unfold handleGrade
  cases s.sessionQueue.get? s.currentIndex <;> simp

/-- C9: startSession with an empty due list is a refused transition that
changes nothing (in particular a dashboard state stays in dashboard);
with a non-empty due list it activates a session whose queue is exactly
the due list (so its length is the due count); and the session queue is
preserved by every in-session transition, flip or grade, so membership
and order never change mid-session. -/
theorem startSession_refused_and_queue_frozen
    (s s1 : ScreenState) (due : List ReviewItem) (g now : ℚ) (ok : Bool)
    (r : ScreenState × SaveArgs × List PendingReviewAction)
    (hdue : due ≠ []) (hr : handleGrade g now ok s1 = .ok r) :
    startSession [] s = s ∧
    (startSession due s).viewState = .session ∧
    (startSession due s).sessionQueue = due ∧
    (handleFlip s1).sessionQueue = s1.sessionQueue ∧
    r.1.sessionQueue = s1.sessionQueue := by
  have hlen : ¬ due.length = 0 := by
    simpa [List.length_eq_zero] using hdue
  refine ⟨?_, ?_, ?_, rfl, ?_⟩
  · rw [startSession]
    simp
  · rw [startSession, if_neg hlen]
  · rw [startSession, if_neg hlen]
  · simp only [handleGrade] at hr
    cases hget : s1.sessionQueue.get? s1.currentIndex with
    | none =>
        rw [hget] at hr
        cases hr
    | some item =>
        rw [hget] at hr
        cases ok with
        | false => simp at hr
        | true =>
            simp only [if_true, reduceIte] at hr
            split_ifs at hr <;>
              · injection hr with h
                subst h
                rfl

/-- C9 witness: a concrete two-card due list activates a session with
that queue, and grading the first card preserves the queue. -/
theorem startSession_refused_and_queue_frozen_witness :
    ([(⟨"s1", .sentence, true, .review⟩ : ReviewItem),
      ⟨"s2", .sentence, true, .new⟩] ≠ []) ∧
    handleGrade 3 0 true
      { viewState := .session,
        sessionQueue := [⟨"s1", .sentence, true, .review⟩,
                         ⟨"s2", .sentence, true, .new⟩],
        currentIndex := 0, isFlipped := true, sessionResults := ⟨0, 0, 0⟩ }
      = .ok ({ viewState := .session,
               sessionQueue := [⟨"s1", .sentence, true, .review⟩,
                                ⟨"s2", .sentence, true, .new⟩],
               currentIndex := 1, isFlipped := false,
               sessionResults := ⟨1, 0, 30⟩ },
             { userId := "users:123", itemId := "s1", itemType := .sentence,
               nextReview := 259200000, interval := 3, easeFactor := 5/2,
               status := .review }, []) ∧
    (startSession
      [(⟨"s1", .sentence, true, .review⟩ : ReviewItem),
       ⟨"s2", .sentence, true, .new⟩]
      { viewState := .dashboard, sessionQueue := [], currentIndex := 0,
        isFlipped := false, sessionResults := ⟨0, 0, 0⟩ }) =
      { viewState := .session,
        sessionQueue := [⟨"s1", .sentence, true, .review⟩,
                         ⟨"s2", .sentence, true, .new⟩],
        currentIndex := 0, isFlipped := false,
        sessionResults := ⟨0, 0, 0⟩ } ∧
    ({ viewState := .session,
       sessionQueue := [⟨"s1", .sentence, true, .review⟩,
                        ⟨"s2", .sentence, true, .new⟩],
       currentIndex := 1, isFlipped := false,
       sessionResults := ⟨1, 0, 30⟩ } : ScreenState).sessionQueue =
      [⟨"s1", .sentence, true, .review⟩, ⟨"s2", .sentence, true, .new⟩] := by
  have hgr : handleGrade 3 0 true
      { viewState := .session,
        sessionQueue := [(⟨"s1", .sentence, true, .review⟩ : ReviewItem),
                         ⟨"s2", .sentence, true, .new⟩],
        currentIndex := 0, isFlipped := true, sessionResults := ⟨0, 0, 0⟩ }
      = .ok ({ viewState := .session,
               sessionQueue := [⟨"s1", .sentence, true, .review⟩,
                                ⟨"s2", .sentence, true, .new⟩],
               currentIndex := 1, isFlipped := false,
               sessionResults := ⟨1, 0, 30⟩ },
             { userId := "users:123", itemId := "s1", itemType := .sentence,
               nextReview := 259200000, interval := 3, easeFactor := 5/2,
               status := .review }, []) := by
    norm_num [handleGrade, gradeArgs, USER_ID, SessionResults.mk.injEq,
      ScreenState.mk.injEq, SaveArgs.mk.injEq]
  refine ⟨by simp, hgr, ?_, ?_⟩
  · exact (startSession_refused_and_queue_frozen
      { viewState := .dashboard, sessionQueue := [], currentIndex := 0,
        isFlipped := false, sessionResults := ⟨0, 0, 0⟩ }
      { viewState := .session,
        sessionQueue := [⟨"s1", .sentence, true, .review⟩,
                         ⟨"s2", .sentence, true, .new⟩],
        currentIndex := 0, isFlipped := true, sessionResults := ⟨0, 0, 0⟩ }
      [⟨"s1", .sentence, true, .review⟩, ⟨"s2", .sentence, true, .new⟩]
      3 0 true _ (by simp) hgr).2.2.1 ▸ rfl
  · exact (startSession_refused_and_queue_frozen
      { viewState := .dashboard, sessionQueue := [], currentIndex := 0,
        isFlipped := false, sessionResults := ⟨0, 0, 0⟩ }
      { viewState := .session,
        sessionQueue := [⟨"s1", .sentence, true, .review⟩,
                         ⟨"s2", .sentence, true, .new⟩],
        currentIndex := 0, isFlipped := true, sessionResults := ⟨0, 0, 0⟩ }
      [⟨"s1", .sentence, true, .review⟩, ⟨"s2", .sentence, true, .new⟩]
      3 0 true _ (by simp) hgr).2.2.2.2

/-- C10 counterexample: for grade 5 on prior scheduling state with
interval 2 and ease factor 2.4, the fixed record written by the grading
handler coincides field by field with the next state computed by
calculateSRS, so the claim that the persisted state never equals the
scheduler output fails. -/
theorem handleGrade_write_equals_scheduler_cex :
    (gradeArgs 5 0 ⟨"s1", .sentence, true, .review⟩).interval =
      (calculateSRS 0 ⟨5, 12/5, 2⟩).interval ∧
    (gradeArgs 5 0 ⟨"s1", .sentence, true, .review⟩).easeFactor =
      (calculateSRS 0 ⟨5, 12/5, 2⟩).easeFactor ∧
    (gradeArgs 5 0 ⟨"s1", .sentence, true, .review⟩).nextReview =
      (calculateSRS 0 ⟨5, 12/5, 2⟩).nextReview ∧
    (gradeArgs 5 0 ⟨"s1", .sentence, true, .review⟩).status =
      (calculateSRS 0 ⟨5, 12/5, 2⟩).status := by
  refine ⟨?_, ?_, ?_, ?_⟩ <;>
    · simp only [gradeArgs, calculateSRS, round2, MIN_EASE_FACTOR]
      norm_num [qceil_eq (5 : ℚ) 5 (by norm_num) (by norm_num)]

/-- C10 amended: every grade submitted through the active-session grading
handler writes the fixed record determined by the grade and timestamp
alone (nextReview = now + grade days, interval = grade, easeFactor = 2.5,
status learning below grade 3 and review otherwise), independent of the
prior scheduling state, and calculateSRS is not consulted: on the spec
scenario (grade 3, prior interval 6, prior ease 2.5) the scheduler
interval 15 differs from the written interval 3 — though for particular
prior states the two records can coincide. -/
theorem handleGrade_fixed_write (g now : ℚ) (ok : Bool) (s : ScreenState)
    (r : ScreenState × SaveArgs × List PendingReviewAction)
    (hr : handleGrade g now ok s = .ok r) :
    (∃ item, s.sessionQueue.get? s.currentIndex = some item ∧
       r.2.1 = gradeArgs g now item) ∧
    r.2.1.interval = g ∧
    r.2.1.easeFactor = 5/2 ∧
    r.2.1.nextReview = now + g * 86400000 ∧
    r.2.1.status = (if g < 3 then Status.learning else .review) ∧
    r.2.2 = [] ∧
    (calculateSRS 0 ⟨3, 5/2, 6⟩).interval ≠
      (gradeArgs 3 0 ⟨"x", .sentence, true, .review⟩).interval := by
  have main : ∃ item, s.sessionQueue.get? s.currentIndex = some item ∧
      r.2.1 = gradeArgs g now item ∧ r.2.2 = [] := by
    simp only [handleGrade] at hr
    cases hget : s.sessionQueue.get? s.currentIndex with
    | none =>
        rw [hget] at hr
        cases hr
    | some item =>
        rw [hget] at hr
        cases ok with
        | false => simp at hr
        | true =>
            simp only [if_true, reduceIte] at hr
            refine ⟨item, rfl, ?_⟩
            split_ifs at hr <;>
              · injection hr with h
                subst h
                exact ⟨rfl, rfl⟩
  obtain ⟨item, hget, hargs, hq⟩ := main
  refine ⟨⟨item, hget, hargs⟩, ?_, ?_, ?_, ?_, hq, ?_⟩
  · rw [hargs]; rfl
  · rw [hargs]; rfl
  · rw [hargs]; rfl
  · rw [hargs]; rfl
  · simp only [gradeArgs, calculateSRS, MIN_EASE_FACTOR]
    norm_num [qceil_eq ((354 : ℚ)/25) 15 (by norm_num) (by norm_num)]

/-- C10 amended witness: grading the single due card with grade 5 writes
the fixed record for grade 5. -/
theorem handleGrade_fixed_write_witness :
    handleGrade 5 0 true
      { viewState := .session,
        sessionQueue := [⟨"s1", .sentence, true, .review⟩],
        currentIndex := 0, isFlipped := true, sessionResults := ⟨0, 0, 0⟩ }
      = .ok ({ viewState := .summary,
               sessionQueue := [⟨"s1", .sentence, true, .review⟩],
               currentIndex := 0, isFlipped := true,
               sessionResults := ⟨1, 0, 50⟩ },
             { userId := "users:123", itemId := "s1", itemType := .sentence,
               nextReview := 432000000, interval := 5, easeFactor := 5/2,
               status := .review }, []) ∧
    ({ userId := "users:123", itemId := "s1", itemType := .sentence,
       nextReview := 432000000, interval := 5, easeFactor := 5/2,
       status := .review } : SaveArgs).interval = 5 ∧
    ({ userId := "users:123", itemId := "s1", itemType := .sentence,
       nextReview := 432000000, interval := 5, easeFactor := 5/2,
       status := .review } : SaveArgs).easeFactor = 5/2 := by
  have hgr : handleGrade 5 0 true
      { viewState := .session,
        sessionQueue := [(⟨"s1", .sentence, true, .review⟩ : ReviewItem)],
        currentIndex := 0, isFlipped := true, sessionResults := ⟨0, 0, 0⟩ }
      = .ok ({ viewState := .summary,
               sessionQueue := [⟨"s1", .sentence, true, .review⟩],
               currentIndex := 0, isFlipped := true,
               sessionResults := ⟨1, 0, 50⟩ },
             { userId := "users:123", itemId := "s1", itemType := .sentence,
               nextReview := 432000000, interval := 5, easeFactor := 5/2,
               status := .review }, []) := by
    norm_num [handleGrade, gradeArgs, USER_ID, SessionResults.mk.injEq,
      ScreenState.mk.injEq, SaveArgs.mk.injEq]
  refine ⟨hgr, ?_, ?_⟩
  · have h := (handleGrade_fixed_write 5 0 true
      { viewState := .session,
        sessionQueue := [⟨"s1", .sentence, true, .review⟩],
        currentIndex := 0, isFlipped := true, sessionResults := ⟨0, 0, 0⟩ }
      _ hgr).2.1
    simpa using h
  · have h := (handleGrade_fixed_write 5 0 true
      { viewState := .session,
        sessionQueue := [⟨"s1", .sentence, true, .review⟩],
        currentIndex := 0, isFlipped := true, sessionResults := ⟨0, 0, 0⟩ }
      _ hgr).2.2.1
    simpa using h

end MandalaMiner
